import Mathlib

/-!
Verification development for `src/opacus/privacy_engine.py` (the only file
under `src/`). The Python file is embedded shallowly: each method of
`PrivacyEngine`, and the module-level `forbid_accumulation_hook` and the
inner `accountant_hook`, become Lean definitions over explicit data types.
Fallible Python code is modelled with `Except PyErr`. Python floats are
modelled as rationals (`ℚ`) for the accountant plumbing, and as real
numbers for the clipping mathematics. Collaborators that the file imports
but whose code is not under `src/` (`RDPAccountant`, `get_noise_multiplier`,
`DPDataLoader`, `GradSampleModule`, `DPOptimizer`, `ModuleValidator`) are
modelled from the specification; each such definition carries a doc comment
starting with `Modelled from the spec:`.
-/

set_option maxHeartbeats 1000000

namespace Opacus

/-- Python exceptions / spec error taxonomy surfaced by the embedded code.
`valueError` is the concrete exception raised by `forbid_accumulation_hook`
(the spec's taxonomy calls this condition `StructuralIncompatibility`);
`invalidParameter` and `infeasibleTarget` are the spec's `InvalidParameter`
and `InfeasibleTarget`; `attributeError` models Python's `AttributeError`
raised when an attribute lookup on an object fails. -/
inductive PyErr where
  | attributeError (attr : String)
  | valueError (msg : String)
  | zeroDivisionError
  | invalidParameter (msg : String)
  | infeasibleTarget
deriving DecidableEq, Repr

/-- The one kind of forward pre-hook registered by the source file
(`module.register_forward_pre_hook(forbid_accumulation_hook)`). -/
inductive PreHook where
  | forbidAccumulation
deriving DecidableEq, Repr

/-- The one kind of optimizer step hook attached by the source file: the
`accountant_hook` closure, which captures the `sample_rate` computed in
`make_private`. -/
inductive StepHook where
  | accountantHook (sample_rate : ℚ)
deriving DecidableEq, Repr

/-- A `torch.nn.Module`, reduced to what the source file observes of it:
either a plain module or a `GradSampleModule` wrapper (the
`isinstance(module, GradSampleModule)` check in `_prepare_model`).
A plain module carries an identifier, a validity flag (what
`ModuleValidator.is_valid` reports for it), one boolean per parameter
recording whether that parameter currently holds a `grad_sample`
attribute (what `forbid_accumulation_hook` inspects via `hasattr`), and
its list of registered forward pre-hooks. -/
inductive Module where
  | base (id : Nat) (valid : Bool) (param_has_grad_sample : List Bool)
      (pre_hooks : List PreHook)
  | gsm (inner : Module) (batch_first : Bool) (loss_reduction : String)
      (pre_hooks : List PreHook)
deriving DecidableEq, Repr

/-- `module.parameters()` restricted to the `hasattr(p, "grad_sample")`
observations made by `forbid_accumulation_hook`; a `GradSampleModule`
exposes its wrapped module's parameters. -/
def Module.parameters : Module → List Bool
  | Module.base _ _ ps _ => ps
  | Module.gsm m _ _ _ => m.parameters

/-- `module.register_forward_pre_hook(h)`: appends to the module's hook list. -/
def Module.register_forward_pre_hook : Module → PreHook → Module
  | Module.base i v ps hs, h => Module.base i v ps (hs ++ [h])
  | Module.gsm m bf lr hs, h => Module.gsm m bf lr (hs ++ [h])

/-- `isinstance(module, GradSampleModule)`. -/
def Module.isGradSampleModule : Module → Bool
  | Module.gsm _ _ _ _ => true
  | Module.base _ _ _ _ => false

/-- Modelled from the spec: `ModuleValidator.is_valid(model) -> bool`
(`opacus/validators/module_validator.py` is not under `src/`). The spec
describes it as a structural linter over the model architecture; it is
modelled as reading the module's validity flag (through a
`GradSampleModule` wrapper). -/
def ModuleValidator.is_valid : Module → Bool
  | Module.base _ v _ _ => v
  | Module.gsm m _ _ _ => ModuleValidator.is_valid m

/-- Modelled from the spec: `ModuleValidator.fix(model) -> model`
(`opacus/validators/module_validator.py` is not under `src/`). The source
file calls the in-place variant `ModuleValidator.fix_`; per the spec it
replaces incompatible normalization layers, modelled as making the module
valid while leaving everything else unchanged. -/
def ModuleValidator.fix_ : Module → Module
  | Module.base i _ ps hs => Module.base i true ps hs
  | Module.gsm m bf lr hs => Module.gsm (ModuleValidator.fix_ m) bf lr hs

/-- A `torch.optim.Optimizer`, reduced to what the source file observes:
either a plain base optimizer or a `DPOptimizer` wrapper holding the
constructor arguments passed in `_prepare_optimizer` plus its attached
step hooks. The `optimizer` field of the `dp` constructor is the wrapped
inner optimizer (`optimizer.optimizer` in the source). -/
inductive Optimizer where
  | base (id : Nat)
  | dp (optimizer : Optimizer) (noise_multiplier : ℚ) (max_grad_norm : ℚ)
      (expected_batch_size : Int) (loss_reduction : String)
      (step_hooks : List StepHook)
deriving DecidableEq, Repr

/-- `optimizer.attach_step_hook(h)` on a `DPOptimizer`: appends the hook.
(The source only ever calls this on the freshly built `DPOptimizer`; on a
plain optimizer it is left as the identity.) -/
def Optimizer.attach_step_hook : Optimizer → StepHook → Optimizer
  | Optimizer.dp o nm mgn ebs lr hs, h => Optimizer.dp o nm mgn ebs lr (hs ++ [h])
  | Optimizer.base i, _ => Optimizer.base i

/-- A `torch.utils.data.DataLoader`, reduced to what the source file
observes: whether it is a `DPDataLoader` (`isinstance` check in
`_prepare_data_loader`), its `len` (number of batches), and the `len` of
its `dataset`. -/
structure DataLoader where
  isDP : Bool
  numBatches : Nat
  datasetSize : Nat
deriving DecidableEq, Repr

/-- Modelled from the spec: `DPDataLoader.from_data_loader`
(`opacus/data_loader.py` is not under `src/`). Per the spec the Poisson
loader keeps a fixed sample rate chosen from the source loader; its length
and dataset are modelled as preserved. -/
def DPDataLoader.from_data_loader (dl : DataLoader) : DataLoader :=
  DataLoader.mk true dl.numBatches dl.datasetSize

/-- Modelled from the spec: the `RDPAccountant`'s state, "an append-only
ledger of privacy-consuming events", each entry a
`(noise_multiplier, sample_rate)` pair. -/
structure Accountant where
  history : List (ℚ × ℚ)
deriving DecidableEq, Repr

/-- Modelled from the spec: `RDPAccountant.step(noise_multiplier,
sample_rate)` "appends one ledger entry. Fails with an InvalidParameter
condition if `noise_multiplier <= 0` or `sample_rate` outside `(0, 1]`". -/
def Accountant.step (acc : Accountant) (noise_multiplier sample_rate : ℚ) :
    Except PyErr Accountant :=
  if noise_multiplier ≤ 0 then
    Except.error (PyErr.invalidParameter "noise_multiplier must be positive")
  else if sample_rate ≤ 0 ∨ 1 < sample_rate then
    Except.error (PyErr.invalidParameter "sample_rate must be in (0, 1]")
  else
    Except.ok (Accountant.mk (acc.history ++ [(noise_multiplier, sample_rate)]))

/-- Modelled from the spec: the accountant's "fixed, finite ordered set of
candidate orders (real numbers > 1, e.g. {1.5, 2, 3, ..., 64, 128, 256})". -/
def defaultAlphas : List ℚ :=
  (3 / 2 : ℚ) :: ((List.range 63).map (fun i => ((i : ℚ) + 2)) ++ [128, 256])

/-- Cumulative RDP at order `α`: the sum over ledger entries of the
per-step bound `rdp α noise_multiplier sample_rate`. The closed-form
per-step subsampled-Gaussian bound itself lives in
`opacus/accountants` (not under `src/`), so the development is parametric
in `rdp`. -/
def rdpSum (rdp : ℚ → ℚ → ℚ → ℚ) (history : List (ℚ × ℚ)) (α : ℚ) : ℚ :=
  (history.map (fun en => rdp α en.1 en.2)).sum

/-- Selection step for the minimum-epsilon candidate: keep the pair with
the strictly smaller first component (ties keep the earlier order). -/
def pickMin (b c : ℚ × ℚ) : ℚ × ℚ :=
  if c.1 < b.1 then c else b

/-- First-component minimum of a list of `(epsilon, order)` candidates. -/
def minByFirst : List (ℚ × ℚ) → Option (ℚ × ℚ)
  | [] => none
  | c :: cs => some (cs.foldl pickMin c)

/-- Modelled from the spec: `RDPAccountant.get_privacy_spent(delta)`
(`opacus/accountants` is not under `src/`). For each candidate order it
sums the per-entry RDP contributions, converts to an `(ε, δ)` guarantee
via the RDP-to-DP conversion, and returns the minimum epsilon together
with the achieving order; it fails with `InvalidParameter` if `delta` is
outside `(0, 1)` or the ledger is empty. Both the per-step RDP bound
(`rdp`) and the conversion formula (`conv α epsRdp delta`) are outside
`src/`, so the definition is parametric in them. -/
def Accountant.get_privacy_spent (rdp conv : ℚ → ℚ → ℚ → ℚ)
    (acc : Accountant) (delta : ℚ) : Except PyErr (ℚ × ℚ) :=
  if delta ≤ 0 ∨ 1 ≤ delta then
    Except.error (PyErr.invalidParameter "delta must be in (0, 1)")
  else if acc.history.isEmpty then
    Except.error (PyErr.invalidParameter "ledger is empty")
  else
    match minByFirst (defaultAlphas.map
        (fun α => (conv α (rdpSum rdp acc.history α) delta, α))) with
    | none => Except.error (PyErr.invalidParameter "no candidate orders")
    | some p => Except.ok p

/-- Bounded bisection used by the noise calibrator: maintains a bracket
`[lo, hi]` with `epsOf hi ≤ target`, returning `hi` once the bracket is
within `tol` or the fuel runs out. -/
def calSearch (epsOf : ℚ → ℚ) (target tol : ℚ) : Nat → ℚ → ℚ → ℚ
  | 0, _, hi => hi
  | fuel + 1, lo, hi =>
    if hi - lo ≤ tol then hi
    else
      let mid := (lo + hi) / 2
      if epsOf mid ≤ target then calSearch epsOf target tol fuel lo mid
      else calSearch epsOf target tol fuel mid hi

/-- Modelled from the spec: `get_noise_multiplier` from
`opacus.accountants.rdp` (not under `src/`). Per §4.3 it finds, by a
deterministic monotone bisection over `[sigma_min, sigma_max]` (defaults
bracketing typical use, `[0.01, 20.0]`), the minimal noise multiplier such
that replaying `epochs / sample_rate` identical ledger entries through the
accountant keeps `get_privacy_spent(target_delta)` at or below
`target_epsilon`; it fails with `InfeasibleTarget` when even `sigma_max`
cannot reach the target or when `sigma_min` already undershoots it. -/
def get_noise_multiplier (rdp conv : ℚ → ℚ → ℚ → ℚ)
    (target_epsilon target_delta sample_rate : ℚ) (epochs : Nat)
    (alphas : Option (List ℚ)) (sigma_min sigma_max : Option ℚ) :
    Except PyErr ℚ :=
  let smin := sigma_min.getD (1 / 100)
  let smax := sigma_max.getD 20
  let steps : Nat := (Rat.ceil ((epochs : ℚ) / sample_rate)).toNat
  let epsAt : ℚ → Except PyErr ℚ := fun nm =>
    ((Accountant.mk (List.replicate steps (nm, sample_rate))).get_privacy_spent
        rdp conv target_delta).map Prod.fst
  match epsAt smax, epsAt smin with
  | Except.error e, _ => Except.error e
  | Except.ok _, Except.error e => Except.error e
  | Except.ok emax, Except.ok emin =>
    if target_epsilon < emax then Except.error PyErr.infeasibleTarget
    else if emin ≤ target_epsilon then Except.error PyErr.infeasibleTarget
    else
      Except.ok (calSearch
        (fun nm => match epsAt nm with
          | Except.ok v => v
          | Except.error _ => target_epsilon + 1)
        target_epsilon (1 / 1000) 100 smin smax)

/-- `PrivacyEngine.__init__(self, secure_mode=False)`: the engine's state
is its accountant (fresh `RDPAccountant()`) and the stored `secure_mode`
flag (the source marks it `TODO: actually support it`). -/
structure PrivacyEngine where
  accountant : Accountant
  secure_mode : Bool
deriving DecidableEq, Repr

/-- `PrivacyEngine(secure_mode)`. -/
def PrivacyEngine.init (secure_mode : Bool) : PrivacyEngine :=
  PrivacyEngine.mk (Accountant.mk []) secure_mode

/-- The attribute names defined on `PrivacyEngine` instances by the class
body of `src/opacus/privacy_engine.py` (the two `__init__` fields and the
methods). Dynamic attribute lookup `self.x` succeeds exactly for these. -/
def privacyEngineAttrs : List String :=
  ["accountant", "secure_mode", "is_compatible", "validate",
   "try_fix_incompatible_modules_", "make_private",
   "make_private_with_epsilon", "_prepare_model", "_prepare_optimizer",
   "_prepare_data_loader", "get_epsilon"]

/-- Python attribute lookup `self.<a>` on a `PrivacyEngine`: raises
`AttributeError` when the name is not defined by the class body. -/
def engineAttr (a : String) : Except PyErr Unit :=
  if privacyEngineAttrs.contains a then Except.ok ()
  else Except.error (PyErr.attributeError a)

/-- `forbid_accumulation_hook(module, _)` (module level, lines 15-22):
raises `ValueError("Poisson sampling is not compatible with grad
accumulation")` as soon as any parameter of the module still has a
`grad_sample` attribute. -/
def forbid_accumulation_hook (module : Module) : Except PyErr Unit :=
  if module.parameters.any (fun p => p) then
    Except.error
      (PyErr.valueError "Poisson sampling is not compatible with grad accumulation")
  else
    Except.ok ()

/-- `PrivacyEngine.is_compatible(self, module, optimizer, data_loader)`:
returns `ModuleValidator.is_valid(module)`; `self`, `optimizer` and
`data_loader` are not used by the body. -/
def is_compatible (self : PrivacyEngine) (module : Module)
    (optimizer : Option Optimizer) (data_loader : Option DataLoader) : Bool :=
  ModuleValidator.is_valid module

/-- `PrivacyEngine.try_fix_incompatible_modules_(self, module)`: calls
`ModuleValidator.fix_(module)` (in-place in Python; explicit state passing
here). -/
def try_fix_incompatible_modules_ (module : Module) : Module :=
  ModuleValidator.fix_ module

/-- `PrivacyEngine._prepare_model(self, module, batch_first,
loss_reduction, try_fix_incompatible_modules)`. After the optional fix,
the source executes `self.valiate(module=module, optimizer=None,
data_loader=None)`; `valiate` is not an attribute defined by the class
(the class defines `validate`), so the attribute lookup raises
`AttributeError`. The remaining lines (return an existing
`GradSampleModule` unchanged, otherwise wrap) are translated below the
failing lookup and are unreachable at runtime. -/
def _prepare_model (module : Module) (batch_first : Bool)
    (loss_reduction : String) (try_fix_incompatible_modules : Bool) :
    Except PyErr Module := do
  let module := if try_fix_incompatible_modules then
      try_fix_incompatible_modules_ module
    else module
  let _ ← engineAttr "valiate"
  if module.isGradSampleModule then
    return module
  else
    return (Module.gsm module batch_first loss_reduction [])

/-- `PrivacyEngine._prepare_optimizer(self, optimizer, noise_multiplier,
max_grad_norm, expected_batch_size, loss_reduction)`: an optimizer that is
already a `DPOptimizer` is first unwrapped to `optimizer.optimizer`, then
a fresh `DPOptimizer` is built around the result. -/
def _prepare_optimizer (optimizer : Optimizer)
    (noise_multiplier max_grad_norm : ℚ) (expected_batch_size : Int)
    (loss_reduction : String) : Optimizer :=
  let optimizer := match optimizer with
    | Optimizer.dp inner _ _ _ _ _ => inner
    | o => o
  Optimizer.dp optimizer noise_multiplier max_grad_norm expected_batch_size
    loss_reduction []

/-- `PrivacyEngine._prepare_data_loader(self, data_loader)`: a
`DPDataLoader` is returned unchanged, anything else is converted via
`DPDataLoader.from_data_loader`. -/
def _prepare_data_loader (data_loader : DataLoader) : DataLoader :=
  if data_loader.isDP then data_loader
  else DPDataLoader.from_data_loader data_loader

/-- The `accountant_hook(optim)` closure defined inside `make_private`
(lines 86-91): calls `self.accountant.step(noise_multiplier =
optim.noise_multiplier, sample_rate = sample_rate *
optim.accumulated_iterations)`, with `sample_rate` captured from
`make_private`. The optimizer's two fields read by the hook are passed
explicitly. -/
def accountant_hook (sample_rate : ℚ) (accountant : Accountant)
    (optim_noise_multiplier : ℚ) (optim_accumulated_iterations : Nat) :
    Except PyErr Accountant :=
  accountant.step optim_noise_multiplier
    (sample_rate * (optim_accumulated_iterations : ℚ))

/-- `PrivacyEngine.make_private(self, module, optimizer, data_loader,
noise_multiplier, max_grad_norm, batch_first=True, loss_reduction="mean",
poisson_sampling=True, try_fix_incompatible_modules=False)`, translated
line by line. `self` is consulted only through attribute lookups (all of
which resolve except the `valiate` lookup inside `_prepare_model`) and
through the `accountant_hook` closure, whose captured `sample_rate` is
recorded in the attached `StepHook`. `1 / len(data_loader)` raises
`ZeroDivisionError` in Python when the loader is empty. -/
def make_private (module : Module) (optimizer : Optimizer)
    (data_loader : DataLoader) (noise_multiplier max_grad_norm : ℚ)
    (batch_first : Bool) (loss_reduction : String)
    (poisson_sampling try_fix_incompatible_modules : Bool) :
    Except PyErr (Module × Optimizer × DataLoader) := do
  let module ← _prepare_model module batch_first loss_reduction
    try_fix_incompatible_modules
  let data_loader := if poisson_sampling then _prepare_data_loader data_loader
    else data_loader
  if data_loader.numBatches = 0 then
    Except.error PyErr.zeroDivisionError
  else
    let sample_rate : ℚ := 1 / (data_loader.numBatches : ℚ)
    let expected_batch_size : Int :=
      Rat.floor ((data_loader.datasetSize : ℚ) * sample_rate)
    let optimizer := _prepare_optimizer optimizer noise_multiplier
      max_grad_norm expected_batch_size loss_reduction
    let optimizer := optimizer.attach_step_hook
      (StepHook.accountantHook sample_rate)
    let module := if poisson_sampling then
        module.register_forward_pre_hook PreHook.forbidAccumulation
      else module
    return (module, optimizer, data_loader)

/-- `PrivacyEngine.make_private_with_epsilon(...)`: computes
`sample_rate = 1 / len(data_loader)`, evaluates
`get_noise_multiplier(...)` (once, eagerly, as the Python argument), and
tail-calls `make_private` with that noise multiplier; note the source does
not pass `poisson_sampling`, so `make_private`'s default `True` applies. -/
def make_private_with_epsilon (rdp conv : ℚ → ℚ → ℚ → ℚ) (module : Module)
    (optimizer : Optimizer) (data_loader : DataLoader)
    (target_epsilon target_delta : ℚ) (epochs : Nat) (max_grad_norm : ℚ)
    (batch_first : Bool) (loss_reduction : String)
    (try_fix_incompatible_modules : Bool) (alphas : Option (List ℚ))
    (sigma_min sigma_max : Option ℚ) :
    Except PyErr (Module × Optimizer × DataLoader) :=
  if data_loader.numBatches = 0 then
    Except.error PyErr.zeroDivisionError
  else
    let sample_rate : ℚ := 1 / (data_loader.numBatches : ℚ)
    (get_noise_multiplier rdp conv target_epsilon target_delta sample_rate
        epochs alphas sigma_min sigma_max).bind
      (fun nm => make_private module optimizer data_loader nm max_grad_norm
        batch_first loss_reduction true try_fix_incompatible_modules)

/-- `PrivacyEngine.get_epsilon(self, delta, alphas=None)`: returns
`self.accountant.get_privacy_spent(delta)[0]`; the `alphas` argument is
unused by the body. -/
def get_epsilon (rdp conv : ℚ → ℚ → ℚ → ℚ) (self : PrivacyEngine)
    (delta : ℚ) (alphas : Option (List ℚ)) : Except PyErr ℚ :=
  (self.accountant.get_privacy_spent rdp conv delta).map Prod.fst

/-- Spec-side counterpart of `make_private_with_epsilon` for the
refinement claim: invoke the calibrator once on
`(target_epsilon, target_delta, 1 / len(data_loader), epochs, alphas,
sigma_min, sigma_max)`, then behave exactly as `make_private` on the same
module, optimizer, data loader and options with the resulting noise
multiplier (and `make_private`'s default `poisson_sampling = True`). -/
def make_private_with_epsilon_spec (rdp conv : ℚ → ℚ → ℚ → ℚ)
    (module : Module) (optimizer : Optimizer) (data_loader : DataLoader)
    (target_epsilon target_delta : ℚ) (epochs : Nat) (max_grad_norm : ℚ)
    (batch_first : Bool) (loss_reduction : String)
    (try_fix_incompatible_modules : Bool) (alphas : Option (List ℚ))
    (sigma_min sigma_max : Option ℚ) :
    Except PyErr (Module × Optimizer × DataLoader) :=
  (get_noise_multiplier rdp conv target_epsilon target_delta
      (1 / (data_loader.numBatches : ℚ)) epochs alphas sigma_min
      sigma_max).bind
    (fun nm => make_private module optimizer data_loader nm max_grad_norm
      batch_first loss_reduction true try_fix_incompatible_modules)

/-- One externally observable operation on a `PrivacyEngine` instance: a
call to one of its public methods, or a flush of a prepared optimizer
whose attached step hook fires against the engine's accountant. -/
inductive EngineOp where
  | opMakePrivate (m : Module) (o : Optimizer) (dl : DataLoader)
      (nm mgn : ℚ) (bf : Bool) (lr : String) (ps tf : Bool)
  | opMakePrivateWithEpsilon (m : Module) (o : Optimizer) (dl : DataLoader)
      (te td : ℚ) (epochs : Nat) (mgn : ℚ) (bf : Bool) (lr : String)
      (tf : Bool) (alphas : Option (List ℚ)) (smin smax : Option ℚ)
  | opGetEpsilon (delta : ℚ) (alphas : Option (List ℚ))
  | opIsCompatible (m : Module) (o : Option Optimizer)
      (dl : Option DataLoader)
  | opFlush (sample_rate nm : ℚ) (iters : Nat)
deriving DecidableEq

instance exceptDecEq {ε α : Type} [DecidableEq ε] [DecidableEq α] :
    DecidableEq (Except ε α) := fun x y =>
  match x, y with
  | Except.ok a, Except.ok b =>
    if h : a = b then Decidable.isTrue (by rw [h])
    else Decidable.isFalse (fun hc => h (Except.ok.inj hc))
  | Except.ok _, Except.error _ =>
    Decidable.isFalse (fun hc => Except.noConfusion hc)
  | Except.error _, Except.ok _ =>
    Decidable.isFalse (fun hc => Except.noConfusion hc)
  | Except.error a, Except.error b =>
    if h : a = b then Decidable.isTrue (by rw [h])
    else Decidable.isFalse (fun hc => h (Except.error.inj hc))

/-- The observable result of one `EngineOp`. -/
inductive Output where
  | tripleOut (r : Except PyErr (Module × Optimizer × DataLoader))
  | epsOut (r : Except PyErr ℚ)
  | boolOut (b : Bool)
  | flushOut (e : Option PyErr)
deriving DecidableEq

/-- Run one operation against the engine, producing the next engine state
and the observable output. Only a successful flush (the `accountant_hook`
firing) mutates the engine, by replacing its accountant. -/
def runOp (rdp conv : ℚ → ℚ → ℚ → ℚ) (e : PrivacyEngine) :
    EngineOp → PrivacyEngine × Output
  | EngineOp.opMakePrivate m o dl nm mgn bf lr ps tf =>
    (e, Output.tripleOut (make_private m o dl nm mgn bf lr ps tf))
  | EngineOp.opMakePrivateWithEpsilon m o dl te td ep mgn bf lr tf al s1 s2 =>
    (e, Output.tripleOut (make_private_with_epsilon rdp conv m o dl te td ep
      mgn bf lr tf al s1 s2))
  | EngineOp.opGetEpsilon d al =>
    (e, Output.epsOut (get_epsilon rdp conv e d al))
  | EngineOp.opIsCompatible m o dl =>
    (e, Output.boolOut (is_compatible e m o dl))
  | EngineOp.opFlush sr nm iters =>
    match accountant_hook sr e.accountant nm iters with
    | Except.ok acc2 => (PrivacyEngine.mk acc2 e.secure_mode,
        Output.flushOut none)
    | Except.error err => (e, Output.flushOut (some err))

/-- Run a sequence of operations, returning the final engine state and the
list of observable outputs. -/
def runOps (rdp conv : ℚ → ℚ → ℚ → ℚ) :
    List EngineOp → PrivacyEngine → PrivacyEngine × List Output
  | [], e => (e, [])
  | op :: ops, e =>
    ((runOps rdp conv ops (runOp rdp conv e op).1).1,
     (runOp rdp conv e op).2 :: (runOps rdp conv ops (runOp rdp conv e op).1).2)

/-- Modelled from the spec: the per-example clip factor of the
clip-and-noise step (§4.1 step 2; the `DPOptimizer` code is not under
`src/`): `min(1.0, max_grad_norm / (norm_i + ε_stability))`, over real
vectors with the L2 norm. -/
noncomputable def clip_factor {d : Nat} (max_grad_norm stab : ℝ)
    (g : EuclideanSpace ℝ (Fin d)) : ℝ :=
  min 1 (max_grad_norm / (‖g‖ + stab))

/-- Modelled from the spec: the clipped-and-summed aggregate of the
clip-and-noise step before noise is added (§4.1 step 3): each example's
gradient scaled by its clip factor, summed across the example axis. -/
noncomputable def clipped_sum {d : Nat} (max_grad_norm stab : ℝ)
    (gs : List (EuclideanSpace ℝ (Fin d))) : EuclideanSpace ℝ (Fin d) :=
  (gs.map (fun g => clip_factor max_grad_norm stab g • g)).sum

/-- Concrete stand-in for the per-step RDP bound, used to instantiate the
parametric accountant in witnesses: decreasing in the noise multiplier and
increasing in the sample rate on the positive range. -/
def rdpDemo : ℚ → ℚ → ℚ → ℚ := fun _α nm q => q / nm

/-- Concrete stand-in for the RDP-to-DP conversion, used to instantiate
the parametric accountant in witnesses. -/
def convDemo : ℚ → ℚ → ℚ → ℚ := fun α e _δ => e + α

/-- A valid plain module with one parameter holding no `grad_sample`. -/
def mPlain : Module := Module.base 0 true [false] []

/-- A valid plain module whose parameter still holds a `grad_sample`. -/
def mStale : Module := Module.base 1 true [true] []

/-- A module already wrapped as a `GradSampleModule`. -/
def mWrapped : Module := Module.gsm (Module.base 2 true [false] []) true "mean" []

/-- A plain base optimizer. -/
def oPlain : Optimizer := Optimizer.base 0

/-- An optimizer already wrapped as a `DPOptimizer`. -/
def oWrapped : Optimizer := Optimizer.dp (Optimizer.base 3) 1 1 5 "mean" []

/-- A plain data loader with 2 batches over a 10-example dataset. -/
def dlPlain : DataLoader := DataLoader.mk false 2 10

/-- A data loader that is already a `DPDataLoader`. -/
def dlDP : DataLoader := DataLoader.mk true 4 20

/-- An engine whose accountant ledger holds one entry. -/
def engDemo : PrivacyEngine := PrivacyEngine.mk (Accountant.mk [(1, 1 / 2)]) false

/-- C1: the claim says that for every model `ModuleValidator` accepts,
`make_private` completes setup validation and returns the wrapped triple.
It does not: for every input whatsoever, `make_private` raises
`AttributeError("valiate")`, because `_prepare_model` calls
`self.valiate(...)` while the class only defines `validate`. -/
theorem make_private_always_attribute_error (module : Module)
    (optimizer : Optimizer) (data_loader : DataLoader)
    (noise_multiplier max_grad_norm : ℚ) (batch_first : Bool)
    (loss_reduction : String)
    (poisson_sampling try_fix_incompatible_modules : Bool) :
    make_private module optimizer data_loader noise_multiplier max_grad_norm
        batch_first loss_reduction poisson_sampling
        try_fix_incompatible_modules =
      Except.error (PyErr.attributeError "valiate") := by
  cases try_fix_incompatible_modules <;> rfl

/-- C2: the claim describes the `accountant_hook` firing on every flush of
the optimizer returned by `make_private`. Evaluated on a concrete
fixed-sampling setup, `make_private` raises `AttributeError("valiate")`
before the optimizer is prepared or the hook attached, so no such
optimizer exists; the hook body itself, run directly on the engine's
accountant, does append exactly the claimed single entry
`(noise_multiplier, sample_rate * accumulated_iterations)`. -/
theorem accountant_hook_never_attached :
    make_private mPlain oPlain dlPlain 1 1 true "mean" false false =
        Except.error (PyErr.attributeError "valiate") ∧
    accountant_hook (1 / 10) (Accountant.mk []) 2 3 =
        Except.ok (Accountant.mk [(2, 3 / 10)]) := by
  constructor
  · rfl
  · norm_num [accountant_hook, Accountant.step]

/-- C3: the claim says a Poisson-mode `make_private` installs a rejection
hook on the returned model while a fixed-sampling `make_private` succeeds
without one. Evaluated on a concrete valid module, both calls raise
`AttributeError("valiate")` instead of returning a model; the module-level
`forbid_accumulation_hook` itself does reject exactly when some parameter
still holds `grad_sample` state. -/
theorem forbid_accumulation_hook_never_installed :
    forbid_accumulation_hook mStale =
        Except.error (PyErr.valueError
          "Poisson sampling is not compatible with grad accumulation") ∧
    forbid_accumulation_hook mPlain = Except.ok () ∧
    make_private mStale oPlain dlPlain 2 1 true "mean" true false =
        Except.error (PyErr.attributeError "valiate") ∧
    make_private mStale oPlain dlPlain 2 1 true "mean" false false =
        Except.error (PyErr.attributeError "valiate") := by
  refine ⟨by decide, by decide, rfl, rfl⟩

/-- C9: the claim says `make_private` returns an already-wrapped module or
data loader unchanged and unwraps an already-wrapped optimizer before
re-wrapping. Evaluated on already-wrapped concrete inputs, `make_private`
raises `AttributeError("valiate")` and returns nothing; the two helpers
that are reachable in isolation do behave as claimed:
`_prepare_optimizer` unwraps a `DPOptimizer` to its inner base optimizer
before wrapping once, and `_prepare_data_loader` returns a `DPDataLoader`
unchanged. -/
theorem make_private_prewrapped_inputs_crash :
    make_private mWrapped oWrapped dlDP 1 1 true "mean" true false =
        Except.error (PyErr.attributeError "valiate") ∧
    _prepare_optimizer oWrapped 2 3 7 "sum" =
        Optimizer.dp (Optimizer.base 3) 2 3 7 "sum" [] ∧
    _prepare_data_loader dlDP = dlDP := by
  refine ⟨rfl, by decide, by decide⟩

/-- C10: `is_compatible` depends only on its module argument — any two
choices of engine, optimizer and data loader give the same boolean, equal
to `ModuleValidator.is_valid(module)`. -/
theorem is_compatible_depends_only_on_module (e1 e2 : PrivacyEngine)
    (m : Module) (o1 o2 : Option Optimizer) (d1 d2 : Option DataLoader) :
    is_compatible e1 m o1 d1 = ModuleValidator.is_valid m ∧
    is_compatible e1 m o1 d1 = is_compatible e2 m o2 d2 :=
  ⟨rfl, rfl⟩

/-- C4: for every input with a nonempty data loader (so that
`1 / len(data_loader)` is defined), `make_private_with_epsilon` returns
exactly what `make_private` returns on the same module, optimizer, data
loader and options, with the noise multiplier set to the single result of
`get_noise_multiplier(target_epsilon, target_delta,
1 / len(data_loader), epochs, alphas, sigma_min, sigma_max)`, the
calibrator being invoked once before `make_private` runs. -/
theorem make_private_with_epsilon_refines (rdp conv : ℚ → ℚ → ℚ → ℚ)
    (module : Module) (optimizer : Optimizer) (data_loader : DataLoader)
    (target_epsilon target_delta : ℚ) (epochs : Nat) (max_grad_norm : ℚ)
    (batch_first : Bool) (loss_reduction : String)
    (try_fix_incompatible_modules : Bool) (alphas : Option (List ℚ))
    (sigma_min sigma_max : Option ℚ) (h : data_loader.numBatches ≠ 0) :
    make_private_with_epsilon rdp conv module optimizer data_loader
        target_epsilon target_delta epochs max_grad_norm batch_first
        loss_reduction try_fix_incompatible_modules alphas sigma_min
        sigma_max =
      make_private_with_epsilon_spec rdp conv module optimizer data_loader
        target_epsilon target_delta epochs max_grad_norm batch_first
        loss_reduction try_fix_incompatible_modules alphas sigma_min
        sigma_max := by
  simp [make_private_with_epsilon, make_private_with_epsilon_spec, h]

/-- Witness for C4 at a concrete input with a 2-batch data loader. -/
theorem make_private_with_epsilon_refines_witness :
    make_private_with_epsilon rdpDemo convDemo mPlain oPlain dlPlain 1
        (1 / 2) 1 1 true "mean" false none none none =
      make_private_with_epsilon_spec rdpDemo convDemo mPlain oPlain dlPlain
        1 (1 / 2) 1 1 true "mean" false none none none :=
  make_private_with_epsilon_refines rdpDemo convDemo mPlain oPlain dlPlain
    1 (1 / 2) 1 1 true "mean" false none none none (by decide)

/-- The first component of a `pickMin` fold is a lower bound for the seed
and for every element of the folded list. -/
theorem foldl_pickMin_le (l : List (ℚ × ℚ)) (a : ℚ × ℚ) :
    (l.foldl pickMin a).1 ≤ a.1 ∧ ∀ p ∈ l, (l.foldl pickMin a).1 ≤ p.1 := by
  induction l generalizing a with
  | nil => exact ⟨le_refl _, by simp⟩
  | cons c cs ih =>
    have h1 : (pickMin a c).1 ≤ a.1 ∧ (pickMin a c).1 ≤ c.1 := by
      unfold pickMin
      split
      · exact ⟨le_of_lt (by assumption), le_refl _⟩
      · exact ⟨le_refl _, le_of_not_lt (by assumption)⟩
    rw [List.foldl_cons]
    obtain ⟨ha, hall⟩ := ih (pickMin a c)
    refine ⟨le_trans ha h1.1, ?_⟩
    intro p hp
    rcases List.mem_cons.mp hp with h | h
    · rw [h]; exact le_trans ha h1.2
    · exact hall p h

/-- A `pickMin` fold returns either the seed or an element of the list. -/
theorem foldl_pickMin_mem (l : List (ℚ × ℚ)) (a : ℚ × ℚ) :
    l.foldl pickMin a = a ∨ l.foldl pickMin a ∈ l := by
  induction l generalizing a with
  | nil => exact Or.inl rfl
  | cons c cs ih =>
    rw [List.foldl_cons]
    rcases ih (pickMin a c) with h | h
    · rw [h]
      unfold pickMin
      split
      · exact Or.inr (List.mem_cons_self _ _)
      · exact Or.inl rfl
    · exact Or.inr (List.mem_cons_of_mem _ h)

/-- `minByFirst` of a list returns an element of the list whose first
component is a lower bound for all first components. -/
theorem minByFirst_spec (l : List (ℚ × ℚ)) (p : ℚ × ℚ)
    (h : minByFirst l = some p) : p ∈ l ∧ ∀ q ∈ l, p.1 ≤ q.1 := by
  cases l with
  | nil => simp [minByFirst] at h
  | cons c cs =>
    have hfold : cs.foldl pickMin c = p := by
      simpa [minByFirst] using h
    constructor
    · rcases foldl_pickMin_mem cs c with h2 | h2
      · rw [← hfold, h2]; exact List.mem_cons_self _ _
      · rw [← hfold]; exact List.mem_cons_of_mem _ h2
    · intro q hq
      obtain ⟨h1, h2⟩ := foldl_pickMin_le cs c
      rcases List.mem_cons.mp hq with h3 | h3
      · rw [← hfold, h3]; exact h1
      · rw [← hfold]; exact h2 q h3

/-- C5: whenever the accountant's `get_privacy_spent(delta)` returns the
pair `(eps, ord)`, `PrivacyEngine.get_epsilon(delta)` returns exactly
`eps`, the epsilon component, discarding the achieving order — and that
component really is the minimum over all candidate orders of the
converted cumulative RDP values, achieved at `ord`. -/
theorem get_epsilon_is_min_over_orders (rdp conv : ℚ → ℚ → ℚ → ℚ)
    (e : PrivacyEngine) (delta eps ord : ℚ)
    (h : e.accountant.get_privacy_spent rdp conv delta =
      Except.ok (eps, ord)) :
    get_epsilon rdp conv e delta none = Except.ok eps ∧
    ord ∈ defaultAlphas ∧
    eps = conv ord (rdpSum rdp e.accountant.history ord) delta ∧
    ∀ α ∈ defaultAlphas,
      eps ≤ conv α (rdpSum rdp e.accountant.history α) delta := by
  refine ⟨by rw [get_epsilon, h]; rfl, ?_⟩
  rw [Accountant.get_privacy_spent] at h
  by_cases h1 : delta ≤ 0 ∨ 1 ≤ delta
  · rw [if_pos h1] at h
    exact Except.noConfusion h
  · rw [if_neg h1] at h
    by_cases h2 : e.accountant.history.isEmpty
    · rw [if_pos h2] at h
      exact Except.noConfusion h
    · rw [if_neg h2] at h
      cases hm : minByFirst (defaultAlphas.map
          (fun α => (conv α (rdpSum rdp e.accountant.history α) delta, α))) with
      | none =>
        rw [hm] at h
        exact Except.noConfusion h
      | some p =>
        rw [hm] at h
        have hp : p = (eps, ord) := Except.ok.inj h
        obtain ⟨hmem, hmin⟩ := minByFirst_spec _ _ hm
        rw [hp] at hmem hmin
        obtain ⟨α, hα, hfα⟩ := List.mem_map.mp hmem
        have hα2 : α = ord := congrArg Prod.snd hfα
        have heps : conv α (rdpSum rdp e.accountant.history α) delta = eps :=
          congrArg Prod.fst hfα
        refine ⟨hα2 ▸ hα, by rw [← hα2, ← heps], ?_⟩
        intro β hβ
        exact hmin _ (List.mem_map_of_mem _ hβ)

/-- Witness for C5 at a concrete engine with ledger `[(1, 1/2)]`,
`delta = 1/2` and concrete instantiations of the parametric RDP bound and
conversion: the minimum converted epsilon is `2`, achieved at order
`3/2`. -/
theorem get_epsilon_is_min_over_orders_witness :
    get_epsilon rdpDemo convDemo engDemo (1 / 2) none = Except.ok 2 ∧
    (3 / 2 : ℚ) ∈ defaultAlphas ∧
    (2 : ℚ) = convDemo (3 / 2)
      (rdpSum rdpDemo engDemo.accountant.history (3 / 2)) (1 / 2) ∧
    ∀ α ∈ defaultAlphas,
      (2 : ℚ) ≤ convDemo α (rdpSum rdpDemo engDemo.accountant.history α)
        (1 / 2) :=
  get_epsilon_is_min_over_orders rdpDemo convDemo engDemo (1 / 2) 2 (3 / 2)
    (by norm_num [Accountant.get_privacy_spent, minByFirst, defaultAlphas,
      rdpSum, pickMin, rdpDemo, convDemo, engDemo, List.range_succ])

/-- C6: for every permutation of a fixed ledger, `get_privacy_spent(delta)`
returns the identical `(epsilon, achieving_order)` result, for every
per-step RDP bound and conversion formula: the cumulative bound depends
only on the multiset of `(noise_multiplier, sample_rate)` entries. -/
theorem get_privacy_spent_perm_invariant (rdp conv : ℚ → ℚ → ℚ → ℚ)
    (delta : ℚ) (l1 l2 : List (ℚ × ℚ)) (h : l1.Perm l2) :
    (Accountant.mk l1).get_privacy_spent rdp conv delta =
      (Accountant.mk l2).get_privacy_spent rdp conv delta := by
  have hsum : ∀ α, rdpSum rdp l1 α = rdpSum rdp l2 α := fun α =>
    List.Perm.sum_eq (h.map _)
  have hf : (fun α => (conv α (rdpSum rdp l1 α) delta, α)) =
      (fun α => (conv α (rdpSum rdp l2 α) delta, α)) :=
    funext fun α => by rw [hsum]
  have hemp : l1.isEmpty = l2.isEmpty := by
    cases hl1 : l1 with
    | nil =>
      cases hl2 : l2 with
      | nil => rfl
      | cons b bs => rw [hl1, hl2] at h; exact absurd h (by simp)
    | cons a as =>
      cases hl2 : l2 with
      | nil => rw [hl1, hl2] at h; exact absurd h (by simp)
      | cons b bs => rfl
  simp only [Accountant.get_privacy_spent, hemp, hf]

/-- Witness for C6 on the two-entry ledger `[(1, 1/2), (2, 1/4)]` and its
transposition. -/
theorem get_privacy_spent_perm_invariant_witness :
    (Accountant.mk [(1, 1 / 2), (2, 1 / 4)]).get_privacy_spent rdpDemo
        convDemo (1 / 2) =
      (Accountant.mk [(2, 1 / 4), (1, 1 / 2)]).get_privacy_spent rdpDemo
        convDemo (1 / 2) :=
  get_privacy_spent_perm_invariant rdpDemo convDemo (1 / 2)
    [(1, 1 / 2), (2, 1 / 4)] [(2, 1 / 4), (1, 1 / 2)]
    (List.Perm.swap (2, 1 / 4) (1, 1 / 2) [])

/-- The result of a single operation, and the accountant it leaves behind,
do not depend on the engine's `secure_mode` flag, which the operation
passes through unchanged. -/
theorem runOp_secure_mode_indep (rdp conv : ℚ → ℚ → ℚ → ℚ)
    (op : EngineOp) (acc : Accountant) (b1 b2 : Bool) :
    (runOp rdp conv (PrivacyEngine.mk acc b1) op).2 =
      (runOp rdp conv (PrivacyEngine.mk acc b2) op).2 ∧
    (runOp rdp conv (PrivacyEngine.mk acc b1) op).1.accountant =
      (runOp rdp conv (PrivacyEngine.mk acc b2) op).1.accountant ∧
    (runOp rdp conv (PrivacyEngine.mk acc b1) op).1.secure_mode = b1 := by
  cases op with
  | opFlush sr nm iters =>
    simp only [runOp]
    cases accountant_hook sr acc nm iters <;> simp
  | opMakePrivate m o dl nm mgn bf lr ps tf => exact ⟨rfl, rfl, rfl⟩
  | opMakePrivateWithEpsilon m o dl te td ep mgn bf lr tf al s1 s2 =>
    exact ⟨rfl, rfl, rfl⟩
  | opGetEpsilon d al => exact ⟨rfl, rfl, rfl⟩
  | opIsCompatible m o dl => exact ⟨rfl, rfl, rfl⟩

/-- C8: `secure_mode` has no effect on behaviour — for any sequence of
operations, two runs differing only in the `secure_mode` flag produce
identical outputs and identical final accountant state. -/
theorem secure_mode_has_no_effect (rdp conv : ℚ → ℚ → ℚ → ℚ)
    (ops : List EngineOp) (acc : Accountant) (b1 b2 : Bool) :
    (runOps rdp conv ops (PrivacyEngine.mk acc b1)).2 =
      (runOps rdp conv ops (PrivacyEngine.mk acc b2)).2 ∧
    (runOps rdp conv ops (PrivacyEngine.mk acc b1)).1.accountant =
      (runOps rdp conv ops (PrivacyEngine.mk acc b2)).1.accountant := by
  induction ops generalizing acc with
  | nil => exact ⟨rfl, rfl⟩
  | cons op ops ih =>
    obtain ⟨hout, hacc, hsec1⟩ := runOp_secure_mode_indep rdp conv op acc b1 b2
    obtain ⟨_, _, hsec2⟩ := runOp_secure_mode_indep rdp conv op acc b2 b1
    have h1 : (runOp rdp conv (PrivacyEngine.mk acc b1) op).1 =
        PrivacyEngine.mk
          (runOp rdp conv (PrivacyEngine.mk acc b2) op).1.accountant b1 := by
      have et : (runOp rdp conv (PrivacyEngine.mk acc b1) op).1 =
          PrivacyEngine.mk
            (runOp rdp conv (PrivacyEngine.mk acc b1) op).1.accountant
            (runOp rdp conv (PrivacyEngine.mk acc b1) op).1.secure_mode := rfl
      rw [et, hsec1, hacc]
    have h2 : (runOp rdp conv (PrivacyEngine.mk acc b2) op).1 =
        PrivacyEngine.mk
          (runOp rdp conv (PrivacyEngine.mk acc b2) op).1.accountant b2 := by
      have et : (runOp rdp conv (PrivacyEngine.mk acc b2) op).1 =
          PrivacyEngine.mk
            (runOp rdp conv (PrivacyEngine.mk acc b2) op).1.accountant
            (runOp rdp conv (PrivacyEngine.mk acc b2) op).1.secure_mode := rfl
      rw [et, hsec2]
    simp only [runOps]
    rw [h1, h2]
    obtain ⟨ihout, ihacc⟩ :=
      ih (runOp rdp conv (PrivacyEngine.mk acc b2) op).1.accountant
    exact ⟨by rw [hout, ihout], ihacc⟩

/-- Each example's clipped contribution to the aggregate has L2 norm at
most `max_grad_norm`. -/
theorem clip_contrib_le {d : Nat} (max_grad_norm stab : ℝ)
    (hC : 0 < max_grad_norm) (hs : 0 ≤ stab)
    (g : EuclideanSpace ℝ (Fin d)) :
    ‖clip_factor max_grad_norm stab g • g‖ ≤ max_grad_norm := by
  have hg : (0 : ℝ) ≤ ‖g‖ := norm_nonneg g
  rw [clip_factor, norm_smul, Real.norm_eq_abs]
  rcases (add_nonneg hg hs).eq_or_lt with h0 | h0
  · have hgz : ‖g‖ = 0 := by linarith
    rw [hgz, mul_zero]
    exact hC.le
  · have hmin0 : (0 : ℝ) ≤ min 1 (max_grad_norm / (‖g‖ + stab)) :=
      le_min zero_le_one (div_nonneg hC.le h0.le)
    rw [abs_of_nonneg hmin0]
    calc min 1 (max_grad_norm / (‖g‖ + stab)) * ‖g‖
        ≤ max_grad_norm / (‖g‖ + stab) * ‖g‖ :=
          mul_le_mul_of_nonneg_right (min_le_right _ _) hg
      _ ≤ max_grad_norm := by
          rw [div_mul_eq_mul_div, div_le_iff₀ h0]
          nlinarith

/-- C7: for any list of per-example gradients and any
`max_grad_norm > 0` (with a nonnegative stabilizing epsilon in the clip
denominator), the L2 norm of the clipped-and-summed gradient before noise
is at most `max_grad_norm * batch_size`, and adding any single example
changes the aggregate by at most `max_grad_norm` in L2 norm. -/
theorem clipped_sum_sensitivity_bound {d : Nat} (max_grad_norm stab : ℝ)
    (hC : 0 < max_grad_norm) (hs : 0 ≤ stab)
    (gs : List (EuclideanSpace ℝ (Fin d))) :
    ‖clipped_sum max_grad_norm stab gs‖ ≤
      max_grad_norm * (gs.length : ℝ) ∧
    ∀ g : EuclideanSpace ℝ (Fin d),
      ‖clipped_sum max_grad_norm stab (g :: gs) -
          clipped_sum max_grad_norm stab gs‖ ≤ max_grad_norm := by
  have hcons : ∀ (g : EuclideanSpace ℝ (Fin d))
      (l : List (EuclideanSpace ℝ (Fin d))),
      clipped_sum max_grad_norm stab (g :: l) =
        clip_factor max_grad_norm stab g • g +
          clipped_sum max_grad_norm stab l := by
    intro g l
    rw [clipped_sum, clipped_sum, List.map_cons, List.sum_cons]
  constructor
  · induction gs with
    | nil =>
      simp [clipped_sum]
    | cons g gs ih =>
      rw [hcons g gs]
      calc ‖clip_factor max_grad_norm stab g • g +
            clipped_sum max_grad_norm stab gs‖
          ≤ ‖clip_factor max_grad_norm stab g • g‖ +
              ‖clipped_sum max_grad_norm stab gs‖ := norm_add_le _ _
        _ ≤ max_grad_norm + max_grad_norm * (gs.length : ℝ) :=
            add_le_add (clip_contrib_le max_grad_norm stab hC hs g) ih
        _ = max_grad_norm * ((g :: gs).length : ℝ) := by
            rw [List.length_cons]
            push_cast
            ring
  · intro g
    rw [hcons g gs, add_sub_cancel_right]
    exact clip_contrib_le max_grad_norm stab hC hs g

/-- Witness for C7 at `max_grad_norm = 1`, stabilizer `0` and the empty
batch of 1-dimensional gradients. -/
theorem clipped_sum_sensitivity_bound_witness :
    ‖clipped_sum 1 0 ([] : List (EuclideanSpace ℝ (Fin 1)))‖ ≤
      1 * ((([] : List (EuclideanSpace ℝ (Fin 1))).length : ℝ)) ∧
    ∀ g : EuclideanSpace ℝ (Fin 1),
      ‖clipped_sum 1 0 (g :: []) -
          clipped_sum 1 0 ([] : List (EuclideanSpace ℝ (Fin 1)))‖ ≤ 1 :=
  clipped_sum_sensitivity_bound 1 0 one_pos le_rfl []

end Opacus
